import Mathlib

/-!
Verification of the messageforge code-generation subsystem.

The subject program is a compile-time code generator: given a structural
description of a message record type (a name plus named fields), it emits
constructors, mutators, and an implementation of the shared `BaseMessage`
interface.  The embedding below mirrors `derive_base_message/src/derive_macro.rs`
and `src/define_message.rs`.  The field-introspection helpers
(`extract_fields`, `field_args`, `field_initializers`) and the fixed
accessor/mutator generator live in crate modules that are not part of the
sources; they are modelled from the specification's external-interface
contracts (and pinned by the in-repo unit tests' expected output).
-/

namespace Messageforge

/-- A named field of a record declaration: identifier plus declared type
(the type is opaque to the generator and passed through verbatim). -/
structure Field where
  name : String
  ty : String
deriving DecidableEq, Repr

/-- The shape of a parsed declaration (`syn::Data`): a struct with named
fields, a tuple struct, a unit struct, an enum, or a union. -/
inductive DataShape where
  | structNamed (fields : List Field)
  | structTuple (tys : List String)
  | structUnit
  | enumShape
  | unionShape
deriving DecidableEq, Repr

/-- A parsed declaration (`syn::DeriveInput`): the type's identifier and
its data shape. -/
structure DeriveInput where
  ident : String
  data : DataShape
deriving DecidableEq, Repr

/-- The raw token-stream input handed to the derive entry points: either it
parses to a `DeriveInput` or it is malformed with some diagnostic text. -/
inductive RawInput where
  | wellFormed (d : DeriveInput)
  | malformed (errMsg : String)
deriving DecidableEq, Repr

/-- `syn::parse2` on the raw input: succeeds exactly on well-formed input. -/
def parse2 : RawInput → Except String DeriveInput
  | .wellFormed d => .ok d
  | .malformed m => .error m

/-- Modelled from the spec: the Field Lister (`extract_fields` from the
crate's `fields` module, absent from the sources).  Contract (§6): turns a
declaration into the ordered list of named fields; fails with a shape error
if the declaration is not a plain record with named fields (tuple-style,
unit, enum, union). -/
def extract_fields (input : DeriveInput) : Except String (List Field) :=
  match input.data with
  | .structNamed fields => .ok fields
  | _ => .error "expected a struct with named fields"

/-- Modelled from the spec: the Argument/Initializer Builder's parameter
list (`field_args` from the crate's `fields` module, absent from the
sources).  Contract (§6): order-preserving, omitting any field whose name
is in the excluded set. -/
def field_args (fields : List Field) (excluded : List String) : List Field :=
  fields.filter (fun f => !(excluded.contains f.name))

/-- Modelled from the spec: the Argument/Initializer Builder's initializer
list (`field_initializers` from the crate's `fields` module, absent from
the sources).  Contract (§6): shorthand initializer tokens, one per
non-excluded field, preserving order; matches the parameter list. -/
def field_initializers (fields : List Field) (excluded : List String) : List String :=
  (fields.filter (fun f => !(excluded.contains f.name))).map Field.name

/-- `has_role_field`: true iff the declaration's named fields contain one
whose identifier is exactly "role"; an extraction failure is absorbed into
`false` (`unwrap_or(false)`). -/
def has_role_field (input : DeriveInput) : Bool :=
  match extract_fields input with
  | .ok named_fields => named_fields.any (fun field => field.name == "role")
  | .error _ => false

/-- The synthetic field appended by the Role Injector: `pub role: String`. -/
def new_role_field : Field := { name := "role", ty := "String" }

/-- `add_role_field`: pushes the synthetic `pub role: String` field onto the
field list when the declaration is a struct with named fields; any other
shape is left untouched. -/
def add_role_field (input : DeriveInput) : DeriveInput :=
  match input.data with
  | .structNamed fields => { input with data := .structNamed (fields ++ [new_role_field]) }
  | _ => input

/-- `str::strip_suffix`: removes one trailing occurrence of `suffix` when
present, otherwise yields none.  Strings are compared by their character
lists. -/
def strip_suffix (s suffix : String) : Option String :=
  if suffix.data.isSuffixOf s.data then
    some (String.mk (s.data.take (s.data.length - suffix.data.length)))
  else none

/-- `extract_message_type_name`: the category identifier obtained from the
type's name by stripping a trailing "Message", falling back to the full
name when the suffix is absent. -/
def extract_message_type_name (input : DeriveInput) : String :=
  (strip_suffix input.ident "Message").getD input.ident

/-- One member of the emitted struct expression inside the full
constructor: the populated `base` record, a shorthand extra-field
initializer, or the synthetic `role: MessageType::<cat>.to_string()`
initializer. -/
inductive StructMember where
  | baseInit (category : String)
  | shorthand (fname : String)
  | roleDefault (category : String)
deriving DecidableEq, Repr

/-- The struct-expression field name a member initializes. -/
def StructMember.fieldName : StructMember → String
  | .baseInit _ => "base"
  | .shorthand n => n
  | .roleDefault _ => "role"

/-- The code emitted by `implement_struct_new`: the convenience
constructor's extra parameters and the argument list it forwards, the full
constructor's extra parameters, the resolved category, and the full
constructor's struct-expression members in emission order. -/
structure StructNewImpl where
  newExtraParams : List Field
  newCallArgs : List String
  fullExtraParams : List Field
  category : String
  members : List StructMember
deriving DecidableEq, Repr

/-- `implement_struct_new`: builds both constructors.  The convenience
constructor's extra parameters are the non-"base" fields and it forwards
the matching shorthand argument list to the full constructor together with
`example = false`; the full constructor's struct expression starts with
the populated `base` record, followed by the shorthand initializers, and —
when no "role" field is declared — one appended synthetic
`role: MessageType::<cat>.to_string()` initializer. -/
def implement_struct_new (input : DeriveInput) : Except String StructNewImpl :=
  match extract_fields input with
  | .error e => .error e
  | .ok named_fields =>
    let fargs := field_args named_fields ["base"]
    let finits := field_initializers named_fields ["base"]
    let message_type_name := extract_message_type_name input
    let inits : List StructMember := finits.map StructMember.shorthand
    let inits :=
      if !(has_role_field input) then
        inits ++ [StructMember.roleDefault message_type_name]
      else inits
    .ok { newExtraParams := fargs
          newCallArgs := finits
          fullExtraParams := fargs
          category := message_type_name
          members := StructMember.baseInit message_type_name :: inits }

/-- An emitted accessor signature: method name and return type text. -/
structure Accessor where
  name : String
  retType : String
deriving DecidableEq, Repr

/-- Modelled from the spec: the Accessor/Mutator Generator's getter set
(`implement_base_getters` from the crate's `methods` module, absent from
the sources).  Contract (§6) and the in-repo unit tests fix the set:
`content`, `message_type`, `is_example`, `additional_kwargs`,
`response_metadata`, `id`, `name`, each a thin pass-through to the base
record. -/
def implement_base_getters : List Accessor :=
  [ { name := "content", retType := "&str" }
  , { name := "message_type", retType := "MessageType" }
  , { name := "is_example", retType := "bool" }
  , { name := "additional_kwargs", retType := "&HashMap<String, String>" }
  , { name := "response_metadata", retType := "&HashMap<String, String>" }
  , { name := "id", retType := "Option<&str>" }
  , { name := "name", retType := "Option<&str>" } ]

/-- Modelled from the spec: the Accessor/Mutator Generator's setter set
(`implement_base_setters` from the crate's `methods` module, absent from
the sources).  Contract (§6): `set_content`, `set_example`, `set_id`,
`set_name`, all operating on the base record. -/
def implement_base_setters : List String :=
  ["set_content", "set_example", "set_id", "set_name"]

/-- The body of the emitted `role()` method: the role field returned
verbatim (`&self.role`), the stored kind's string form
(`self.base.message_type.as_str()`), or — in the declarative macro — the
category expression's string form (`<cat>.as_str()`). -/
inductive RoleBodyExpr where
  | selfRoleField
  | baseMessageTypeAsStr
  | categoryAsStr (category : String)
deriving DecidableEq, Repr

/-- The emitted `impl BaseMessage for <name>` block: the fixed getters plus
the branch-selected `role()` body. -/
structure BaseMessageImpl where
  structName : String
  getters : List Accessor
  roleBody : RoleBodyExpr
deriving DecidableEq, Repr

/-- `implement_base_message`: the interface implementation; `role()`
returns the role field verbatim when one is declared, otherwise the string
form of the stored message kind. -/
def implement_base_message (input : DeriveInput) : BaseMessageImpl :=
  { structName := input.ident
    getters := implement_base_getters
    roleBody :=
      if has_role_field input then RoleBodyExpr.selfRoleField
      else RoleBodyExpr.baseMessageTypeAsStr }

/-- One derivation's emitted code block: inherent impl (constructors then
setters) followed by the interface implementation. -/
structure GeneratedCode where
  structName : String
  structNew : StructNewImpl
  setters : List String
  baseMessage : BaseMessageImpl
deriving DecidableEq, Repr

/-- A derive entry point's result token stream: either the generated code
or a fatal compile-error diagnostic (with no generated definitions). -/
inductive DeriveOutput where
  | code (g : GeneratedCode)
  | compileError (msg : String)
deriving DecidableEq, Repr

/-- `derive_macro_with_role`: the legacy dual-dispatch entry point.  It
re-parses the declaration, appends the synthetic role field to that parsed
copy, then discards the mutated copy and returns the already-computed
`finished_impl` unchanged. -/
def derive_macro_with_role (input : RawInput) (finished_impl : GeneratedCode) : DeriveOutput :=
  match parse2 input with
  | .error err => .compileError err
  | .ok ast =>
    let _mutated := add_role_field ast
    .code finished_impl

/-- `derive_macro`: the derivation driver.  Parse, synthesize constructors
(failing fatally on a shape error), assemble the finished implementation,
then either return it directly or route it through the legacy role path. -/
def derive_macro (input : RawInput) : DeriveOutput :=
  match parse2 input with
  | .error err => .compileError err
  | .ok ast =>
    match implement_struct_new ast with
    | .error err => .compileError err
    | .ok struct_new_impl =>
      let base_setters := implement_base_setters
      let base_message_impl := implement_base_message ast
      let finished_impl : GeneratedCode :=
        { structName := ast.ident
          structNew := struct_new_impl
          setters := base_setters
          baseMessage := base_message_impl }
      if has_role_field ast then
        derive_macro_with_role (RawInput.wellFormed ast) finished_impl
      else
        .code finished_impl

/-- The code emitted by the declarative `define_message!` macro for one
category identifier: the struct declaration (one `base` field), both
constructors (no extra parameters), the inherent getter and setter method
names, the trait-impl getter signatures, and the `role()` body. -/
structure DefineMessageOutput where
  structName : String
  structFields : List Field
  newExtraParams : List Field
  newCallArgs : List String
  members : List StructMember
  inherentGetters : List String
  setters : List String
  traitGetters : List Accessor
  roleBody : RoleBodyExpr
deriving DecidableEq, Repr

/-- `define_message!(MessageType::<cat>)` from `src/define_message.rs`:
pastes `<cat>Message` with a single `base` field, a convenience/full
constructor pair whose struct expression holds only the populated base
record, the fixed inherent accessors and setters, and a trait impl whose
`message_type` getter returns `&MessageType` and whose `role()` body is
`<cat>.as_str()`. -/
def define_message (category : String) : DefineMessageOutput :=
  { structName := category ++ "Message"
    structFields := [{ name := "base", ty := "BaseMessageFields" }]
    newExtraParams := []
    newCallArgs := []
    members := [StructMember.baseInit category]
    inherentGetters :=
      ["is_example", "additional_kwargs", "response_metadata", "id", "name"]
    setters := ["set_content", "set_example", "set_id", "set_name"]
    traitGetters :=
      [ { name := "content", retType := "&str" }
      , { name := "message_type", retType := "&MessageType" }
      , { name := "is_example", retType := "bool" }
      , { name := "additional_kwargs", retType := "&HashMap<String, String>" }
      , { name := "response_metadata", retType := "&HashMap<String, String>" }
      , { name := "id", retType := "Option<&str>" }
      , { name := "name", retType := "Option<&str>" } ]
    roleBody := RoleBodyExpr.categoryAsStr category }

/-!  Evaluation semantics for the emitted constructors and `role()` bodies.
Extra-field values are opaque and represented as strings; a `MessageType`
value is represented by its category identifier. -/

/-- Modelled from the spec: the string form of a `MessageType` value
(its `to_string`/`as_str`, defined outside the sources).  The spec calls it
"the string form of the resolved category value", so it is the category
identifier itself. -/
def messageTypeStringForm (category : String) : String := category

/-- The fixed base record populated by the full constructor: given content,
example flag and the resolved kind; both metadata maps empty, id and name
absent. -/
structure BaseMessageFields where
  content : String
  exampleFlag : Bool
  message_type : String
  additional_kwargs : List (String × String)
  response_metadata : List (String × String)
  id : Option String
  name : Option String
deriving DecidableEq, Repr

/-- A constructed message value: the base record plus the extra-field
assignments in initializer order. -/
structure MessageValue where
  base : BaseMessageFields
  extras : List (String × String)
deriving DecidableEq, Repr

/-- The base record built inside the emitted full constructor. -/
def mkBase (category content : String) (ex : Bool) : BaseMessageFields :=
  { content := content
    exampleFlag := ex
    message_type := category
    additional_kwargs := []
    response_metadata := []
    id := none
    name := none }

/-- Evaluate one non-base struct-expression member under an environment
binding the constructor's extra parameters: a shorthand member reads its
variable, the synthetic role member produces the kind's string form. -/
def evalInit (env : List (String × String)) : StructMember → Option (String × String)
  | .baseInit _ => none
  | .shorthand n => (env.lookup n).map (fun v => (n, v))
  | .roleDefault cat => some ("role", messageTypeStringForm cat)

/-- Run the emitted `new_with_example(content, example, vals…)`: bind the
extra parameters to `vals`, build the base record from the leading member,
then evaluate the remaining members in order. -/
def evalNewWithExample (i : StructNewImpl) (content : String) (ex : Bool)
    (vals : List String) : Option MessageValue :=
  let env := (i.fullExtraParams.map Field.name).zip vals
  match i.members with
  | StructMember.baseInit cat :: rest =>
    (rest.mapM (evalInit env)).map
      (fun extras => { base := mkBase cat content ex, extras := extras })
  | _ => none

/-- Run the emitted convenience `new(content, vals…)`: bind its extra
parameters to `vals`, evaluate the forwarded argument expressions, and
delegate to `new_with_example` with `example = false`. -/
def evalNew (i : StructNewImpl) (content : String) (vals : List String) :
    Option MessageValue :=
  let env := (i.newExtraParams.map Field.name).zip vals
  (i.newCallArgs.mapM (fun a => env.lookup a)).bind
    (fun args => evalNewWithExample i content false args)

/-- Evaluate an emitted `role()` body against a constructed message value:
the verbatim role field reads the "role" extra, the other two shapes
produce the string form of the stored or pasted kind. -/
def evalRoleBody (v : MessageValue) : RoleBodyExpr → Option String
  | .selfRoleField => v.extras.lookup "role"
  | .baseMessageTypeAsStr => some (messageTypeStringForm v.base.message_type)
  | .categoryAsStr cat => some (messageTypeStringForm cat)

/-- Whether a struct-expression member is the synthetic role initializer. -/
def StructMember.isRoleDefault : StructMember → Bool
  | .roleDefault _ => true
  | _ => false

/-- The constructor pair of a `define_message!` expansion, in the same
shape as the derive path's emitted constructors. -/
def DefineMessageOutput.ctorImpl (m : DefineMessageOutput) : StructNewImpl :=
  { newExtraParams := m.newExtraParams
    newCallArgs := m.newCallArgs
    fullExtraParams := m.newExtraParams
    category := ""
    members := m.members }

/-- The declaration `struct <cat>Message { base: BaseMessageFields }`, the
role-less extra-field-free shape the declarative path is compared against. -/
def baseOnlyDecl (category : String) : DeriveInput :=
  { ident := category ++ "Message"
    data := DataShape.structNamed [{ name := "base", ty := "BaseMessageFields" }] }

/-- Structural equivalence between a derive-path emission and a
`define_message!` expansion, following the spec's words: same type name,
same constructor signatures and struct-expression members, same mutator
set, same accessor signatures, and a `role()` method with the same
behavior on the values the full constructors build. -/
def structurallyEquivalent (g : GeneratedCode) (m : DefineMessageOutput) : Prop :=
  g.structName = m.structName ∧
  g.structNew.newExtraParams = m.newExtraParams ∧
  g.structNew.members = m.members ∧
  g.setters = m.setters ∧
  g.baseMessage.getters = m.traitGetters ∧
  (∀ content ex v w,
    evalNewWithExample g.structNew content ex [] = some v →
    evalNewWithExample m.ctorImpl content ex [] = some w →
    evalRoleBody v g.baseMessage.roleBody = evalRoleBody w m.roleBody)

/-- The derivation driver with the inert legacy branch removed: parse,
synthesize, and return the finished implementation directly.  This is the
spec's net-effect reading of the driver. -/
def derive_macro_direct (input : RawInput) : DeriveOutput :=
  match parse2 input with
  | .error err => .compileError err
  | .ok ast =>
    match implement_struct_new ast with
    | .error err => .compileError err
    | .ok struct_new_impl =>
      .code { structName := ast.ident
              structNew := struct_new_impl
              setters := implement_base_setters
              baseMessage := implement_base_message ast }

/-!  Helper lemmas shared by the claim theorems. -/

/-- Characterization of the role detector over the parsed shape. -/
theorem hasRole_eq_true_iff (d : DeriveInput) :
    has_role_field d = true ↔
      ∃ fs, d.data = DataShape.structNamed fs ∧ ∃ f ∈ fs, f.name = "role" := by
  cases hd : d.data <;>
    simp [has_role_field, extract_fields, hd, List.any_eq_true, beq_iff_eq]

/-- The role detector is false exactly when no named field is "role". -/
theorem hasRole_eq_false_of_none (d : DeriveInput) (fs : List Field)
    (h : d.data = DataShape.structNamed fs) (hnr : ∀ f ∈ fs, f.name ≠ "role") :
    has_role_field d = false := by
  rw [Bool.eq_false_iff]
  intro hc
  rcases (hasRole_eq_true_iff d).mp hc with ⟨fs', hfs', f, hf, hname⟩
  rw [h] at hfs'
  cases hfs'
  exact hnr f hf hname

/-- Stripping a present suffix recovers a prefix whose concatenation with
the suffix is the original character list. -/
theorem strip_suffix_spec (s suffix : String)
    (h : suffix.data.isSuffixOf s.data = true) :
    ∃ t, strip_suffix s suffix = some t ∧ t.data ++ suffix.data = s.data := by
  rcases List.isSuffixOf_iff_suffix.mp h with ⟨t, ht⟩
  refine ⟨String.mk (s.data.take (s.data.length - suffix.data.length)), ?_, ?_⟩
  · simp [strip_suffix, h]
  · rw [← ht, List.length_append, Nat.add_sub_cancel, List.take_left]

/-- Stripping an absent suffix is a miss. -/
theorem strip_suffix_none (s suffix : String)
    (h : suffix.data.isSuffixOf s.data = false) :
    strip_suffix s suffix = none := by
  simp [strip_suffix, h]

/-- C7: the Role Detector returns true exactly on plain named-field records
containing a field named "role"; extraction failure on any other shape is
absorbed into `false` instead of propagating the shape error. -/
theorem C7_role_detector_contract (d : DeriveInput) :
    (has_role_field d = true ↔
      ∃ fs, d.data = DataShape.structNamed fs ∧ ∃ f ∈ fs, f.name = "role") ∧
    ((∀ fs, d.data ≠ DataShape.structNamed fs) → has_role_field d = false) := by
  refine ⟨hasRole_eq_true_iff d, ?_⟩
  intro hshape
  rw [Bool.eq_false_iff]
  intro hc
  rcases (hasRole_eq_true_iff d).mp hc with ⟨fs, hfs, -⟩
  exact hshape fs hfs

/-- C7 witness: the detector fires on `HumanMessage` with an explicit role
field, and is false on a tuple-style record. -/
theorem C7_role_detector_contract_witness :
    has_role_field
      { ident := "HumanMessage"
        data := DataShape.structNamed
          [ { name := "role", ty := "String" }
          , { name := "base", ty := "BaseMessageFields" } ] } = true ∧
    has_role_field { ident := "Weird", data := DataShape.structTuple ["u8"] } = false := by
  constructor
  · exact (C7_role_detector_contract _).1.mpr
      ⟨_, rfl, { name := "role", ty := "String" }, by simp, rfl⟩
  · exact (C7_role_detector_contract _).2 (by intro fs h; cases h)

/-- C8: the Category Name Resolver removes one trailing "Message" when the
suffix is present, and is the identity on every name without that suffix. -/
theorem C8_category_resolver (d : DeriveInput) :
    ("Message".data.isSuffixOf d.ident.data = true →
      (extract_message_type_name d).data ++ "Message".data = d.ident.data) ∧
    ("Message".data.isSuffixOf d.ident.data = false →
      extract_message_type_name d = d.ident) := by
  constructor
  · intro h
    rcases strip_suffix_spec d.ident "Message" h with ⟨t, hstrip, happ⟩
    rw [extract_message_type_name, hstrip]
    exact happ
  · intro h
    rw [extract_message_type_name, strip_suffix_none d.ident "Message" h]
    rfl

/-- C8 witness: "XMessage" resolves to "X" (suffix removed) and
"FooBarBaz" resolves to itself (identity on suffix-free names). -/
theorem C8_category_resolver_witness :
    (extract_message_type_name
        { ident := "XMessage", data := DataShape.structUnit }).data
      ++ "Message".data = "XMessage".data ∧
    extract_message_type_name { ident := "FooBarBaz", data := DataShape.structUnit }
      = "FooBarBaz" := by
  constructor
  · exact (C8_category_resolver _).1 (by decide)
  · exact (C8_category_resolver _).2 (by decide)

/-- C10: the Role Injector appends exactly one `pub role: String` field at
the end of a named-field struct and changes nothing else; any other shape
is left entirely unchanged; the append is unconditional, so an already
present "role" field is duplicated (its occurrence count rises by one). -/
theorem C10_role_injector_frame (d : DeriveInput) :
    (∀ fs, d.data = DataShape.structNamed fs →
      add_role_field d
        = { ident := d.ident, data := DataShape.structNamed (fs ++ [new_role_field]) } ∧
      ((fs ++ [new_role_field]).map Field.name).count "role"
        = (fs.map Field.name).count "role" + 1) ∧
    ((∀ fs, d.data ≠ DataShape.structNamed fs) → add_role_field d = d) := by
  constructor
  · intro fs hfs
    constructor
    · cases d with
      | mk ident data => cases hfs; rfl
    · simp [new_role_field]
  · intro hshape
    cases hd : d.data with
    | structNamed fs => exact absurd hd (hshape fs)
    | structTuple tys =>
      cases d with
      | mk ident data => cases hd; rfl
    | structUnit =>
      cases d with
      | mk ident data => cases hd; rfl
    | enumShape =>
      cases d with
      | mk ident data => cases hd; rfl
    | unionShape =>
      cases d with
      | mk ident data => cases hd; rfl

/-- C10 witness: injecting into a struct already declaring a role field
appends the synthetic field at the end, duplicating "role"; a tuple-style
record is untouched. -/
theorem C10_role_injector_frame_witness :
    add_role_field
        { ident := "HumanMessage"
          data := DataShape.structNamed
            [ { name := "role", ty := "String" }
            , { name := "base", ty := "BaseMessageFields" } ] }
      = { ident := "HumanMessage"
          data := DataShape.structNamed
            [ { name := "role", ty := "String" }
            , { name := "base", ty := "BaseMessageFields" }
            , { name := "role", ty := "String" } ] } ∧
    add_role_field { ident := "Weird", data := DataShape.structTuple ["u8"] }
      = { ident := "Weird", data := DataShape.structTuple ["u8"] } := by
  constructor
  · exact ((C10_role_injector_frame
      { ident := "HumanMessage"
        data := DataShape.structNamed
          [ { name := "role", ty := "String" }
          , { name := "base", ty := "BaseMessageFields" } ] }).1
      [ { name := "role", ty := "String" }
      , { name := "base", ty := "BaseMessageFields" } ] rfl).1
  · exact (C10_role_injector_frame _).2 (by intro fs h; cases h)

/-- C2: the legacy dual-dispatch entry point parses its input, appends the
synthetic role field to that parsed copy, then discards the copy and
returns the already-computed code unchanged; hence the driver's output is
exactly the finished implementation it computed before the branch, on both
return paths. -/
theorem C2_legacy_role_path_inert :
    (∀ (d : DeriveInput) (fi : GeneratedCode),
      derive_macro_with_role (RawInput.wellFormed d) fi = DeriveOutput.code fi) ∧
    (∀ input : RawInput, derive_macro input = derive_macro_direct input) := by
  constructor
  · intro d fi
    rfl
  · intro input
    cases input with
    | malformed m => rfl
    | wellFormed d =>
      rw [ derive_macro, derive_macro_direct]
      cases h : implement_struct_new d with
      | error e => simp [parse2, h]
      | ok i =>
        simp only [parse2, h]
        by_cases hr : has_role_field d <;> simp [hr, derive_macro_with_role, parse2]

/-- C9: an unparseable input, or one whose shape is not a plain named-field
record, makes the driver return a single fatal compile-error diagnostic
and none of the generated definitions. -/
theorem C9_all_or_nothing (input : RawInput)
    (h : ∀ (d : DeriveInput) (fs : List Field),
      input = RawInput.wellFormed d → d.data ≠ DataShape.structNamed fs) :
    ∃ msg, derive_macro input = DeriveOutput.compileError msg ∧
      ∀ g, derive_macro input ≠ DeriveOutput.code g := by
  cases input with
  | malformed m =>
    refine ⟨m, rfl, ?_⟩
    intro g hc
    cases hc
  | wellFormed d =>
    have hshape : ∀ fs, d.data ≠ DataShape.structNamed fs := fun fs => h d fs rfl
    have hext : extract_fields d = Except.error "expected a struct with named fields" := by
      cases hd : d.data with
      | structNamed fs => exact absurd hd (hshape fs)
      | structTuple tys => simp [extract_fields, hd]
      | structUnit => simp [extract_fields, hd]
      | enumShape => simp [extract_fields, hd]
      | unionShape => simp [extract_fields, hd]
    have hisn : implement_struct_new d
        = Except.error "expected a struct with named fields" := by
      rw [implement_struct_new, hext]
    refine ⟨"expected a struct with named fields", ?_, ?_⟩
    · rw [ derive_macro]
      simp [parse2, hisn]
    · intro g hc
      rw [ derive_macro] at hc
      simp [parse2, hisn] at hc

/-- C9 witness: Scenario 4's tuple-style record produces only a
compile-error diagnostic. -/
theorem C9_all_or_nothing_witness :
    ∃ msg,
      derive_macro (RawInput.wellFormed { ident := "Weird", data := DataShape.structTuple ["u8"] })
        = DeriveOutput.compileError msg ∧
      ∀ g,
        derive_macro (RawInput.wellFormed { ident := "Weird", data := DataShape.structTuple ["u8"] })
          ≠ DeriveOutput.code g := by
  exact C9_all_or_nothing _ (by intro d fs hEq hn; cases hEq; cases hn)

/-- The name carried by a shorthand member, if any. -/
def StructMember.shorthandName? : StructMember → Option String
  | .shorthand n => some n
  | _ => none

/-- On a named-field struct, the Constructor Synthesizer's output in full:
both parameter lists are the non-"base" fields, the forwarded arguments
are their names, the category is the resolved name, and the members are
the base record followed by the shorthand initializers, with the synthetic
role initializer appended exactly when no role field is declared. -/
theorem implement_struct_new_named (d : DeriveInput) (fs : List Field)
    (h : d.data = DataShape.structNamed fs) :
    implement_struct_new d = Except.ok
      { newExtraParams := field_args fs ["base"]
        newCallArgs := field_initializers fs ["base"]
        fullExtraParams := field_args fs ["base"]
        category := extract_message_type_name d
        members := StructMember.baseInit (extract_message_type_name d) ::
          (if has_role_field d = false then
            (field_initializers fs ["base"]).map StructMember.shorthand
              ++ [StructMember.roleDefault (extract_message_type_name d)]
          else
            (field_initializers fs ["base"]).map StructMember.shorthand) } := by
  have hext : extract_fields d = Except.ok fs := by simp [extract_fields, h]
  by_cases hr : has_role_field d <;>
    simp [implement_struct_new, hext, hr]

/-- The singleton exclusion list used by the synthesizer coincides with the
plain "not named base" filter. -/
theorem field_args_base (fs : List Field) :
    field_args fs ["base"] = fs.filter (fun f => f.name != "base") := by
  simp [field_args, List.contains, bne, Bool.beq_eq_decide_eq]

/-- Initializer tokens for the "base" exclusion are the filtered names. -/
theorem field_initializers_base (fs : List Field) :
    field_initializers fs ["base"]
      = (fs.filter (fun f => f.name != "base")).map Field.name := by
  simp [field_initializers, List.contains, bne, Bool.beq_eq_decide_eq]

/-- C1: the generated interface implementation's `role()` body returns the
declared role field verbatim when one exists, and otherwise the string
form of the message-kind value stored in the base record. -/
theorem C1_role_method_branch (d : DeriveInput) (fs : List Field)
    (h : d.data = DataShape.structNamed fs) :
    ((∃ f ∈ fs, f.name = "role") →
      (implement_base_message d).roleBody = RoleBodyExpr.selfRoleField) ∧
    ((∀ f ∈ fs, f.name ≠ "role") →
      (implement_base_message d).roleBody = RoleBodyExpr.baseMessageTypeAsStr) := by
  constructor
  · intro hex
    have hr : has_role_field d = true := (hasRole_eq_true_iff d).mpr ⟨fs, h, hex⟩
    simp [implement_base_message, hr]
  · intro hnr
    have hr := hasRole_eq_false_of_none d fs h hnr
    simp [implement_base_message, hr]

/-- C1 witness: the role-field struct gets the verbatim accessor, the
role-less struct gets the stored-kind accessor. -/
theorem C1_role_method_branch_witness :
    (implement_base_message
        { ident := "HumanMessage"
          data := DataShape.structNamed
            [ { name := "role", ty := "String" }
            , { name := "base", ty := "BaseMessageFields" } ] }).roleBody
      = RoleBodyExpr.selfRoleField ∧
    (implement_base_message
        { ident := "SystemMessage"
          data := DataShape.structNamed
            [ { name := "base", ty := "BaseMessageFields" } ] }).roleBody
      = RoleBodyExpr.baseMessageTypeAsStr := by
  constructor
  · exact (C1_role_method_branch _ _ rfl).1
      ⟨{ name := "role", ty := "String" }, by simp, rfl⟩
  · exact (C1_role_method_branch _ _ rfl).2 (by decide)

/-- Specialization of the synthesizer's output when no role field is
declared: the synthetic role initializer is appended after the shorthand
initializers. -/
theorem implement_struct_new_noRole (d : DeriveInput) (fs : List Field)
    (h : d.data = DataShape.structNamed fs) (hr : has_role_field d = false) :
    implement_struct_new d = Except.ok
      { newExtraParams := field_args fs ["base"]
        newCallArgs := field_initializers fs ["base"]
        fullExtraParams := field_args fs ["base"]
        category := extract_message_type_name d
        members := StructMember.baseInit (extract_message_type_name d) ::
          ((field_initializers fs ["base"]).map StructMember.shorthand
            ++ [StructMember.roleDefault (extract_message_type_name d)]) } := by
  rw [implement_struct_new_named d fs h]
  simp [hr]

/-- Specialization of the synthesizer's output when a role field is
declared: no synthetic initializer is appended. -/
theorem implement_struct_new_role (d : DeriveInput) (fs : List Field)
    (h : d.data = DataShape.structNamed fs) (hr : has_role_field d = true) :
    implement_struct_new d = Except.ok
      { newExtraParams := field_args fs ["base"]
        newCallArgs := field_initializers fs ["base"]
        fullExtraParams := field_args fs ["base"]
        category := extract_message_type_name d
        members := StructMember.baseInit (extract_message_type_name d) ::
          (field_initializers fs ["base"]).map StructMember.shorthand } := by
  rw [implement_struct_new_named d fs h]
  simp [hr]

/-- C5: without a declared "role" field the full constructor appends
exactly one synthetic role initializer, last in the struct expression, and
its category is the very category stored in the base record's
`message_type` member; with a declared "role" field no synthetic
initializer is appended and the caller-supplied role flows through as an
ordinary extra parameter, argument, and shorthand initializer. -/
theorem C5_synthetic_role_initializer (d : DeriveInput) (fs : List Field)
    (i : StructNewImpl) (h : d.data = DataShape.structNamed fs)
    (hi : implement_struct_new d = Except.ok i) :
    ((∀ f ∈ fs, f.name ≠ "role") →
      i.members.head? = some (StructMember.baseInit i.category) ∧
      i.members.getLast? = some (StructMember.roleDefault i.category) ∧
      i.members.countP (fun m => m.isRoleDefault) = 1 ∧
      i.category = extract_message_type_name d) ∧
    ((∃ f ∈ fs, f.name = "role") →
      i.members.countP (fun m => m.isRoleDefault) = 0 ∧
      "role" ∈ i.newExtraParams.map Field.name ∧
      "role" ∈ i.newCallArgs ∧
      StructMember.shorthand "role" ∈ i.members) := by
  constructor
  · intro hnr
    have hr : has_role_field d = false := hasRole_eq_false_of_none d fs h hnr
    have hlit := (implement_struct_new_noRole d fs h hr).symm.trans hi
    injection hlit with hlit
    rw [← hlit]
    refine ⟨rfl, ?_, ?_, rfl⟩
    · rw [← List.cons_append]
      exact List.getLast?_concat _
    · simp [List.countP_cons, List.countP_append, List.countP_map,
        Function.comp_def, StructMember.isRoleDefault]
  · intro hex
    have hr : has_role_field d = true := (hasRole_eq_true_iff d).mpr ⟨fs, h, hex⟩
    have hlit := (implement_struct_new_role d fs h hr).symm.trans hi
    injection hlit with hlit
    rw [← hlit]
    rcases hex with ⟨f, hf, hname⟩
    have hfilter : f ∈ fs.filter (fun g => g.name != "base") := by
      rw [List.mem_filter]
      exact ⟨hf, by rw [hname]; decide⟩
    have hmemname : "role" ∈ (fs.filter (fun g => g.name != "base")).map Field.name := by
      rw [← hname]
      exact List.mem_map_of_mem Field.name hfilter
    refine ⟨?_, ?_, ?_, ?_⟩
    · simp [List.countP_cons, List.countP_map, Function.comp_def,
        StructMember.isRoleDefault]
    · rw [field_args_base]
      exact hmemname
    · rw [field_initializers_base]
      exact hmemname
    · rw [field_initializers_base]
      exact List.mem_cons_of_mem _
        (List.mem_map_of_mem StructMember.shorthand hmemname)

/-- C5 witness: `SystemMessage` without a role field gets exactly one
synthetic initializer, last and sharing the base record's category;
`HumanMessage` with a role field gets none and forwards "role" as an
ordinary argument. -/
theorem C5_synthetic_role_initializer_witness :
    ({ newExtraParams := ([] : List Field)
       newCallArgs := ([] : List String)
       fullExtraParams := ([] : List Field)
       category := "System"
       members := [ StructMember.baseInit "System"
                  , StructMember.roleDefault "System" ] : StructNewImpl }).members.getLast?
      = some (StructMember.roleDefault "System") ∧
    ({ newExtraParams := [ { name := "role", ty := "String" } ]
       newCallArgs := ["role"]
       fullExtraParams := [ { name := "role", ty := "String" } ]
       category := "Human"
       members := [ StructMember.baseInit "Human"
                  , StructMember.shorthand "role" ] : StructNewImpl }).members.countP
        (fun m => m.isRoleDefault) = 0 := by
  constructor
  · exact ((C5_synthetic_role_initializer
      { ident := "SystemMessage"
        data := DataShape.structNamed [ { name := "base", ty := "BaseMessageFields" } ] }
      [ { name := "base", ty := "BaseMessageFields" } ]
      { newExtraParams := []
        newCallArgs := []
        fullExtraParams := []
        category := "System"
        members := [ StructMember.baseInit "System"
                   , StructMember.roleDefault "System" ] }
      rfl rfl).1 (by decide)).2.1
  · exact ((C5_synthetic_role_initializer
      { ident := "HumanMessage"
        data := DataShape.structNamed
          [ { name := "role", ty := "String" }
          , { name := "base", ty := "BaseMessageFields" } ] }
      [ { name := "role", ty := "String" }
      , { name := "base", ty := "BaseMessageFields" } ]
      { newExtraParams := [ { name := "role", ty := "String" } ]
        newCallArgs := ["role"]
        fullExtraParams := [ { name := "role", ty := "String" } ]
        category := "Human"
        members := [ StructMember.baseInit "Human"
                   , StructMember.shorthand "role" ] }
      rfl rfl).2
      ⟨{ name := "role", ty := "String" }, by simp, rfl⟩).1

/-- Collapsing a filterMap that always succeeds into a map. -/
theorem filterMap_some_name (l : List Field) :
    l.filterMap (fun f => some f.name) = l.map Field.name := by
  induction l with
  | nil => rfl
  | cons a l ih => simp [List.filterMap_cons, ih]

/-- C6: both constructors' parameter lists, the forwarded argument list,
and the shorthand initializers all equal the declared non-"base" fields in
declaration order; the base record is the struct expression's first
member; and a declared "role" field is initialized exactly once. -/
theorem C6_field_order_invariant (d : DeriveInput) (fs : List Field)
    (i : StructNewImpl) (h : d.data = DataShape.structNamed fs)
    (hi : implement_struct_new d = Except.ok i) :
    i.newExtraParams = fs.filter (fun f => f.name != "base") ∧
    i.fullExtraParams = fs.filter (fun f => f.name != "base") ∧
    i.newCallArgs = (fs.filter (fun f => f.name != "base")).map Field.name ∧
    i.members.head? = some (StructMember.baseInit i.category) ∧
    (i.members.drop 1).filterMap StructMember.shorthandName?
      = (fs.filter (fun f => f.name != "base")).map Field.name ∧
    ((fs.map Field.name).Nodup → (∃ f ∈ fs, f.name = "role") →
      (i.members.map StructMember.fieldName).count "role" = 1) := by
  have hlit := (implement_struct_new_named d fs h).symm.trans hi
  injection hlit with hlit
  rw [← hlit]
  refine ⟨field_args_base fs, field_args_base fs, field_initializers_base fs, rfl, ?_, ?_⟩
  · by_cases hr : has_role_field d = false <;>
      simp [hr, field_initializers_base, List.filterMap_append,
        List.filterMap_map, Function.comp_def, StructMember.shorthandName?,
        filterMap_some_name]
  · intro hnodup hex
    have hr : has_role_field d = true :=
      (hasRole_eq_true_iff d).mpr ⟨fs, h, hex⟩
    simp only [hr, if_neg (by simp : ¬ (true = false))]
    rcases hex with ⟨f, hf, hname⟩
    have hsub : ((fs.filter (fun g => g.name != "base")).map Field.name).Sublist
        (fs.map Field.name) :=
      List.Sublist.map Field.name (List.filter_sublist fs)
    have hnodup' : ((fs.filter (fun g => g.name != "base")).map Field.name).Nodup :=
      List.Sublist.nodup hsub hnodup
    have hmem : "role" ∈ (fs.filter (fun g => g.name != "base")).map Field.name := by
      rw [← hname]
      refine List.mem_map_of_mem Field.name ?_
      rw [List.mem_filter]
      exact ⟨hf, by rw [hname]; decide⟩
    rw [field_initializers_base, List.map_cons, List.map_map]
    have hcomp : StructMember.fieldName ∘ StructMember.shorthand = id := by
      funext n
      rfl
    rw [hcomp, List.map_id]
    simp only [StructMember.fieldName]
    rw [List.count_cons_of_ne (by decide)]
    exact List.count_eq_one_of_mem hnodup' hmem

/-- C6 witness: for `HumanMessage { role, base }` every generated list is
`[role]` in order, the base record leads the struct expression, and "role"
is initialized exactly once. -/
theorem C6_field_order_invariant_witness :
    ({ newExtraParams := [ { name := "role", ty := "String" } ]
       newCallArgs := ["role"]
       fullExtraParams := [ { name := "role", ty := "String" } ]
       category := "Human"
       members := [ StructMember.baseInit "Human"
                  , StructMember.shorthand "role" ] : StructNewImpl }).newCallArgs
      = (([ { name := "role", ty := "String" }
          , { name := "base", ty := "BaseMessageFields" } ] : List Field).filter
            (fun f => f.name != "base")).map Field.name ∧
    ([ StructMember.baseInit "Human", StructMember.shorthand "role" ].map
        StructMember.fieldName).count "role" = 1 := by
  have hinst := C6_field_order_invariant
    { ident := "HumanMessage"
      data := DataShape.structNamed
        [ { name := "role", ty := "String" }
        , { name := "base", ty := "BaseMessageFields" } ] }
    [ { name := "role", ty := "String" }
    , { name := "base", ty := "BaseMessageFields" } ]
    { newExtraParams := [ { name := "role", ty := "String" } ]
      newCallArgs := ["role"]
      fullExtraParams := [ { name := "role", ty := "String" } ]
      category := "Human"
      members := [ StructMember.baseInit "Human"
                 , StructMember.shorthand "role" ] }
    rfl rfl
  exact ⟨hinst.2.2.1, hinst.2.2.2.2.2 (by decide)
    ⟨{ name := "role", ty := "String" }, by simp, rfl⟩⟩

/-- Looking keys up past a binding none of them matches changes nothing. -/
theorem mapM_lookup_cons (ns : List String) (env : List (String × String))
    (n v : String) (hn : n ∉ ns) :
    ns.mapM (fun a => ((n, v) :: env).lookup a)
      = ns.mapM (fun a => env.lookup a) := by
  induction ns with
  | nil => rfl
  | cons a as ih =>
    have han : a ≠ n := fun hEq => hn (hEq ▸ List.mem_cons_self a as)
    have has : n ∉ as := fun hmem => hn (List.mem_cons_of_mem a hmem)
    have hbeq : (a == n) = false := by simp [han]
    have hla : List.lookup a ((n, v) :: env) = List.lookup a env := by
      simp [List.lookup, hbeq]
    rw [List.mapM_cons, List.mapM_cons, hla, ih has]

/-- Looking a duplicate-free key list up in its own zip with a value list
of equal length recovers exactly the value list. -/
theorem mapM_lookup_zip_self (ns : List String) (vs : List String)
    (hnodup : ns.Nodup) (hlen : ns.length = vs.length) :
    ns.mapM (fun a => (ns.zip vs).lookup a) = some vs := by
  induction ns generalizing vs with
  | nil =>
    cases vs with
    | nil => rfl
    | cons v vs => cases hlen
  | cons n ns ih =>
    cases vs with
    | nil => cases hlen
    | cons v vs =>
      have hn : n ∉ ns := (List.nodup_cons.mp hnodup).1
      have hnodup' : ns.Nodup := (List.nodup_cons.mp hnodup).2
      have hlen' : ns.length = vs.length := by simpa using hlen
      have hzip : (n :: ns).zip (v :: vs) = (n, v) :: ns.zip vs := rfl
      rw [List.mapM_cons, hzip]
      have h1 : List.lookup n ((n, v) :: ns.zip vs) = some v := by
        simp [List.lookup]
      rw [h1, mapM_lookup_cons ns (ns.zip vs) n v hn, ih vs hnodup' hlen']
      rfl

/-- C4: the emitted convenience constructor is semantically equal to the
emitted full constructor at `example = false` with the same content and
the same extra-field arguments in the same order. -/
theorem C4_convenience_equals_full (d : DeriveInput) (fs : List Field)
    (i : StructNewImpl) (h : d.data = DataShape.structNamed fs)
    (hnodup : (fs.map Field.name).Nodup)
    (hi : implement_struct_new d = Except.ok i)
    (content : String) (vals : List String)
    (hlen : vals.length = i.newExtraParams.length) :
    evalNew i content vals = evalNewWithExample i content false vals := by
  have hlit := (implement_struct_new_named d fs h).symm.trans hi
  injection hlit with hlit
  have hparams : i.newExtraParams = field_args fs ["base"] := by
    rw [← hlit]
  have hcall : i.newCallArgs = field_initializers fs ["base"] := by
    rw [← hlit]
  have hnames : i.newCallArgs = i.newExtraParams.map Field.name := by
    rw [hparams, hcall, field_args_base, field_initializers_base]
  have hnodup' : (i.newExtraParams.map Field.name).Nodup := by
    rw [hparams, field_args_base]
    exact List.Sublist.nodup
      (List.Sublist.map Field.name (List.filter_sublist fs)) hnodup
  have hlen' : (i.newExtraParams.map Field.name).length = vals.length := by
    rw [List.length_map]
    exact hlen.symm
  simp only [evalNew, hnames]
  rw [mapM_lookup_zip_self _ vals hnodup' hlen']
  rfl

/-- C4 witness: for `HumanMessage { role, base }` the convenience
constructor at content "hi" and role "user" builds the very record the
full constructor builds at `example = false`. -/
theorem C4_convenience_equals_full_witness :
    evalNew
        { newExtraParams := [ { name := "role", ty := "String" } ]
          newCallArgs := ["role"]
          fullExtraParams := [ { name := "role", ty := "String" } ]
          category := "Human"
          members := [ StructMember.baseInit "Human"
                     , StructMember.shorthand "role" ] }
        "hi" ["user"]
      = evalNewWithExample
          { newExtraParams := [ { name := "role", ty := "String" } ]
            newCallArgs := ["role"]
            fullExtraParams := [ { name := "role", ty := "String" } ]
            category := "Human"
            members := [ StructMember.baseInit "Human"
                       , StructMember.shorthand "role" ] }
          "hi" false ["user"] := by
  exact C4_convenience_equals_full
    { ident := "HumanMessage"
      data := DataShape.structNamed
        [ { name := "role", ty := "String" }
        , { name := "base", ty := "BaseMessageFields" } ] }
    [ { name := "role", ty := "String" }
    , { name := "base", ty := "BaseMessageFields" } ]
    { newExtraParams := [ { name := "role", ty := "String" } ]
      newCallArgs := ["role"]
      fullExtraParams := [ { name := "role", ty := "String" } ]
      category := "Human"
      members := [ StructMember.baseInit "Human"
                 , StructMember.shorthand "role" ] }
    rfl (by decide) rfl "hi" ["user"] rfl

/-- Resolving the name `<cat>Message` yields exactly `<cat>`. -/
theorem extract_name_of_append (category : String) :
    extract_message_type_name (baseOnlyDecl category) = category := by
  have hsuf : "Message".data.isSuffixOf (category ++ "Message").data = true := by
    rw [List.isSuffixOf_iff_suffix]
    exact ⟨category.data, by rw [String.data_append]⟩
  rcases strip_suffix_spec (category ++ "Message") "Message" hsuf with ⟨t, hstrip, happ⟩
  have ht : t = category := by
    apply String.ext
    have h2 : t.data ++ "Message".data = category.data ++ "Message".data := by
      rw [happ, String.data_append]
    exact List.append_cancel_right h2
  rw [extract_message_type_name]
  show (strip_suffix (category ++ "Message") "Message").getD (category ++ "Message")
    = category
  rw [hstrip, ht]
  rfl

/-- The driver's full output on the role-less, extra-field-free shape
`struct <cat>Message { base: BaseMessageFields }`. -/
theorem derive_macro_baseOnly (category : String) :
    derive_macro (RawInput.wellFormed (baseOnlyDecl category)) = DeriveOutput.code
      { structName := category ++ "Message"
        structNew :=
          { newExtraParams := []
            newCallArgs := []
            fullExtraParams := []
            category := category
            members := [ StructMember.baseInit category
                       , StructMember.roleDefault category ] }
        setters := implement_base_setters
        baseMessage :=
          { structName := category ++ "Message"
            getters := implement_base_getters
            roleBody := RoleBodyExpr.baseMessageTypeAsStr } } := by
  have hr : has_role_field (baseOnlyDecl category) = false := rfl
  have hisn := implement_struct_new_noRole (baseOnlyDecl category)
    [ { name := "base", ty := "BaseMessageFields" } ] rfl hr
  rw [extract_name_of_append] at hisn
  rw [ derive_macro]
  simp only [parse2, hisn, hr, Bool.false_eq_true, if_false]
  rfl

/-- C3 counterexample: at category "Human" the driver's output for the
base-only type is not structurally equivalent to the `define_message!`
expansion — the driver's full constructor carries a synthetic role
initializer that the declarative path lacks, and the `message_type`
accessor signatures disagree. -/
theorem C3_not_structurally_equivalent :
    derive_macro (RawInput.wellFormed (baseOnlyDecl "Human")) = DeriveOutput.code
      { structName := "HumanMessage"
        structNew :=
          { newExtraParams := []
            newCallArgs := []
            fullExtraParams := []
            category := "Human"
            members := [ StructMember.baseInit "Human"
                       , StructMember.roleDefault "Human" ] }
        setters := implement_base_setters
        baseMessage :=
          { structName := "HumanMessage"
            getters := implement_base_getters
            roleBody := RoleBodyExpr.baseMessageTypeAsStr } } ∧
    ¬ structurallyEquivalent
      { structName := "HumanMessage"
        structNew :=
          { newExtraParams := []
            newCallArgs := []
            fullExtraParams := []
            category := "Human"
            members := [ StructMember.baseInit "Human"
                       , StructMember.roleDefault "Human" ] }
        setters := implement_base_setters
        baseMessage :=
          { structName := "HumanMessage"
            getters := implement_base_getters
            roleBody := RoleBodyExpr.baseMessageTypeAsStr } }
      (define_message "Human") := by
  constructor
  · exact derive_macro_baseOnly "Human"
  · intro h
    exact absurd h.2.2.1 (by decide)

/-- The accessor names of the two paths coincide. -/
theorem getters_names_agree :
    implement_base_getters.map Accessor.name
      = (define_message "X").traitGetters.map Accessor.name := by
  decide

/-- The accessor signatures of the two paths differ (at `message_type`). -/
theorem getters_signatures_differ :
    implement_base_getters ≠ (define_message "X").traitGetters := by
  decide

/-- C3 amended: for every category the two paths agree on the type name,
the constructor signatures and forwarded arguments, the setter set, the
accessor names, and the observable behavior of `role()`; they differ in
exactly the respects the counterexample exhibits — the driver appends a
synthetic role initializer to the struct expression and its `message_type`
accessor returns `MessageType` where the declarative path returns
`&MessageType`. -/
theorem C3_partial_equivalence (category : String) :
    ∃ g, derive_macro (RawInput.wellFormed (baseOnlyDecl category)) = DeriveOutput.code g ∧
      g.structName = (define_message category).structName ∧
      g.structNew.newExtraParams = (define_message category).newExtraParams ∧
      g.structNew.newCallArgs = (define_message category).newCallArgs ∧
      g.setters = (define_message category).setters ∧
      g.structNew.members
        = (define_message category).members ++ [StructMember.roleDefault category] ∧
      g.baseMessage.getters.map Accessor.name
        = (define_message category).traitGetters.map Accessor.name ∧
      g.baseMessage.getters ≠ (define_message category).traitGetters ∧
      (∀ content ex v w,
        evalNewWithExample g.structNew content ex [] = some v →
        evalNewWithExample (define_message category).ctorImpl content ex [] = some w →
        evalRoleBody v g.baseMessage.roleBody
          = evalRoleBody w (define_message category).roleBody) := by
  refine ⟨_, derive_macro_baseOnly category, rfl, rfl, rfl, rfl, rfl,
    getters_names_agree, getters_signatures_differ, ?_⟩
  intro content ex v w h1 h2
  simp only [evalNewWithExample, DefineMessageOutput.ctorImpl, define_message,
    List.mapM_cons, List.mapM_nil, evalInit, Option.map_some, Option.map_none] at h1 h2
  have hv : v = { base := mkBase category content ex
                  extras := [("role", messageTypeStringForm category)] } := by
    cases h1
    rfl
  have hw : w = { base := mkBase category content ex, extras := [] } := by
    cases h2
    rfl
  rw [hv, hw]
  rfl

/-- C3 witness: the partial-equivalence facts instantiated at category
"Human". -/
theorem C3_partial_equivalence_witness :
    ∃ g, derive_macro (RawInput.wellFormed (baseOnlyDecl "Human")) = DeriveOutput.code g ∧
      g.structName = (define_message "Human").structName ∧
      g.structNew.newExtraParams = (define_message "Human").newExtraParams ∧
      g.structNew.newCallArgs = (define_message "Human").newCallArgs ∧
      g.setters = (define_message "Human").setters ∧
      g.structNew.members
        = (define_message "Human").members ++ [StructMember.roleDefault "Human"] ∧
      g.baseMessage.getters.map Accessor.name
        = (define_message "Human").traitGetters.map Accessor.name ∧
      g.baseMessage.getters ≠ (define_message "Human").traitGetters ∧
      (∀ content ex v w,
        evalNewWithExample g.structNew content ex [] = some v →
        evalNewWithExample (define_message "Human").ctorImpl content ex [] = some w →
        evalRoleBody v g.baseMessage.roleBody
          = evalRoleBody w (define_message "Human").roleBody) :=
  C3_partial_equivalence "Human"

end Messageforge
